import Mathlib

/-! Embedding of the VM lifecycle orchestration and abuse-control subsystem of the
gcp_discord_bot repository: the usage ledger and rate limiter (src/cogs/db_cog.py),
the game-server inventory operations (nested inside the setup function of
db_cog.py), the provisioning and control workflows (src/cogs/gameserver_cog.py),
and the cloud operation polling and firewall helpers (src/cogs/gcp_cog.py).
Timestamps are modelled as integer seconds. -/

namespace GcpBot

/- ### Module structure of db_cog.py -/

/-- Names bound as methods in the body of class DBCog (db_cog.py lines 44-200). -/
def dbCogClassMethods : List String :=
  ["__init__", "log_usage", "on_command_completion", "on_interaction",
   "cog_check", "get_last_command_timestamp", "check_app_command_rate_limit"]

/-- Names bound as instance attributes in DBCog.__init__ (db_cog.py lines 45-61). -/
def dbCogInstanceAttrs : List String :=
  ["bot", "engine", "Session", "max_commands_per_minute", "excluded_commands"]

/-- Names defined as local async functions in the body of the module-level setup
function of db_cog.py (lines 226-348). They are local bindings of setup and are
never assigned to the DBCog class object or to any DBCog instance. -/
def setupLocalFunctions : List String :=
  ["register_game_server", "update_game_server_status", "get_game_server_by_name",
   "get_user_active_game_servers", "get_all_running_servers", "remove_game_server"]

/-- Outcome of a Python attribute lookup on a DBCog instance. -/
inductive PyAttr
  | found
  | attributeError
deriving DecidableEq, Repr

/-- Attribute lookup on a DBCog instance: instance attributes set in __init__,
then class attributes; any other name raises AttributeError. -/
def dbCogGetattr (name : String) : PyAttr :=
  if dbCogInstanceAttrs.contains name || dbCogClassMethods.contains name then
    PyAttr.found
  else
    PyAttr.attributeError

/-- Inventory operations invoked as db_cog.<op>(...) by the provisioning workflow
(create_game_server), the control actions (_control_game_server, gameserv_list,
gameserv_status) and the auto-shutdown sweep (auto_shutdown_task) in
gameserver_cog.py. -/
def inventoryOpsCalledByGameServerCog : List String :=
  ["get_user_active_game_servers", "register_game_server", "get_game_server_by_name",
   "update_game_server_status", "remove_game_server", "get_all_running_servers"]

/-- Inventory operation invoked as db_cog.get_game_server_by_name(...) by the
ownership check can_control_game_server in utils/permissions.py (line 105). -/
def inventoryOpCalledByPermissions : String := "get_game_server_by_name"

/- ### Usage ledger and rate limiter (db_cog.py) -/

/-- A row of the user_usage table (db_cog.py lines 17-24). -/
structure UsageEvent where
  userId : String
  commandName : String
  timestamp : Int
deriving DecidableEq, Repr

/-- Result of a storage access: either a value or a raised storage error. -/
inductive StoreResult (α : Type)
  | ok (a : α)
  | err
deriving DecidableEq, Repr

/-- The count query of cog_check / check_app_command_rate_limit (db_cog.py lines
106-110 and 174-179): number of usage rows of the user with timestamp at or after
the given instant. -/
def countSince (events : List UsageEvent) (userId : String) (since : Int) : Nat :=
  (events.filter (fun e => e.userId == userId && decide (since ≤ e.timestamp))).length

/-- Rate limit configuration read from settings in DBCog.__init__. -/
structure RateLimitConfig where
  maxCommandsPerMinute : Nat
  excludedCommands : List String
deriving Repr

/-- The admission decision of check_app_command_rate_limit (db_cog.py lines
144-200, same policy as cog_check lines 94-121), with the count lookup outcome
passed in: owner bypass, then excluded-command bypass, then the windowed count
compared against the configured maximum; a storage error admits (fail open). -/
def checkAppCommandRateLimit (cfg : RateLimitConfig) (isOwner : Bool)
    (commandName : String) (countResult : StoreResult Nat) : Bool :=
  if isOwner then
    true
  else if cfg.excludedCommands.contains commandName then
    true
  else
    match countResult with
    | StoreResult.ok commandCount =>
        if cfg.maxCommandsPerMinute ≤ commandCount then false else true
    | StoreResult.err => true

/-- The full admission check over an event store: the count lookup is the number
of the caller's usage events in the 60 seconds preceding now (db_cog.py lines
174-179), and storeFails models a raised database error during that lookup. -/
def rateLimitAdmit (cfg : RateLimitConfig) (isOwner : Bool) (commandName : String)
    (events : List UsageEvent) (userId : String) (now : Int) (storeFails : Bool) :
    Bool :=
  checkAppCommandRateLimit cfg isOwner commandName
    (if storeFails then StoreResult.err
     else StoreResult.ok (countSince events userId (now - 60)))

/- ### Instance name validation (gameserver_cog.py line 273, gcp_cog.py line 297) -/

/-- The lowercase letters of the class [a-z]. -/
def lowerChars : List Char :=
  ['a', 'b', 'c', 'd', 'e', 'f', 'g', 'h', 'i', 'j', 'k', 'l', 'm',
   'n', 'o', 'p', 'q', 'r', 's', 't', 'u', 'v', 'w', 'x', 'y', 'z']

/-- The digits of the class [0-9]. -/
def digitChars : List Char :=
  ['0', '1', '2', '3', '4', '5', '6', '7', '8', '9']

/-- The characters of the class [-a-z0-9]. -/
def middleChars : List Char := '-' :: (lowerChars ++ digitChars)

/-- The characters of the class [a-z0-9]. -/
def endingChars : List Char := lowerChars ++ digitChars

/-- A character class as a regular expression: the alternation of its members. -/
def charClass (l : List Char) : RegularExpression Char :=
  l.foldr (fun c r => RegularExpression.char c + r) 0

/-- The instance-name grammar of gameserver_cog.py line 273 and gcp_cog.py line
297, the Python pattern [a-z]([-a-z0-9]*[a-z0-9])? used with re.fullmatch. -/
def instanceNameRegex : RegularExpression Char :=
  charClass lowerChars *
    (1 + (charClass middleChars).star * charClass endingChars)

/-- The validation performed by create_game_server (gameserver_cog.py lines
272-279) and create_vm (gcp_cog.py lines 296-303) before any cloud call:
re.fullmatch of the name grammar together with the 1..63 length bound. -/
def validateInstanceName (n : List Char) : Bool :=
  instanceNameRegex.rmatch n && (decide (1 ≤ n.length) && decide (n.length ≤ 63))

/- ### Game server inventory (GameServerInstance model and the inventory
operations defined inside setup in db_cog.py) -/

/-- One entry of the ports_info JSON list, e.g. a pair 25565 / TCP. -/
structure PortSpec where
  port : Nat
  protocol : String
deriving DecidableEq, Repr

/-- A row of the game_server_instances table (db_cog.py lines 26-42).
The ports_info column stores the JSON serialisation of the port list; the
serialisation being injective, the field holds the list itself here. -/
structure GameServerRecord where
  discordUserId : String
  gcpInstanceName : String
  gcpInstanceId : Option String
  gcpZone : String
  gameTemplateName : String
  status : String
  ipAddress : Option String
  portsInfo : Option (List PortSpec)
  createdAt : Int
  lastStatusUpdate : Option Int
  autoShutdownHours : Option Nat
  additionalConfig : Option String
deriving DecidableEq, Repr

/-- The filter_by(gcp_instance_name=...).first() lookup used throughout
db_cog.py; gcp_instance_name carries a unique index. -/
def findServer (db : List GameServerRecord) (name : String) :
    Option GameServerRecord :=
  db.find? (fun s => s.gcpInstanceName == name)

/-- Python truthiness of an optional string: None and the empty string are
falsy. -/
def pyTruthyStr : Option String → Bool
  | none => false
  | some s => !s.isEmpty

/-- The field mutations of update_game_server_status (db_cog.py lines 262-270)
on the found record: status is assigned unconditionally; ip_address only when
the argument is not None (so an empty string is stored); gcp_instance_id only
when truthy; ports_info only when not None; last_status_update is set to now. -/
def applyGameServerUpdate (r : GameServerRecord) (status : String)
    (ipAddress : Option String) (gcpInstanceId : Option String)
    (portsInfo : Option (List PortSpec)) (now : Int) : GameServerRecord :=
  { r with
    status := status
    ipAddress :=
      match ipAddress with
      | some ip => some ip
      | none => r.ipAddress
    gcpInstanceId :=
      if pyTruthyStr gcpInstanceId then gcpInstanceId else r.gcpInstanceId
    portsInfo :=
      match portsInfo with
      | some ps => some ps
      | none => r.portsInfo
    lastStatusUpdate := some now }

/-- update_game_server_status (db_cog.py lines 256-282): returns False leaving
the store untouched when the name is not found; otherwise mutates the record and
commits. commitFails models a raised storage error during the update: the
handler rolls the session back and returns False as well (lines 277-280). -/
def updateGameServerStatus (db : List GameServerRecord) (name status : String)
    (ipAddress gcpInstanceId : Option String)
    (portsInfo : Option (List PortSpec)) (now : Int) (commitFails : Bool) :
    Bool × List GameServerRecord :=
  match findServer db name with
  | none => (false, db)
  | some _ =>
    if commitFails then (false, db)
    else
      (true,
        db.map (fun s =>
          if s.gcpInstanceName == name then
            applyGameServerUpdate s status ipAddress gcpInstanceId portsInfo now
          else s))

/-- remove_game_server (db_cog.py lines 328-348): hard-deletes the row of the
named instance (unique per name) and returns True; returns False when absent. -/
def removeGameServer (db : List GameServerRecord) (name : String) :
    Bool × List GameServerRecord :=
  match findServer db name with
  | none => (false, db)
  | some _ => (true, db.filter (fun s => !(s.gcpInstanceName == name)))

/-- The statuses counted as active by get_user_active_game_servers
(db_cog.py line 299). -/
def activeStatuses : List String :=
  ["PROVISIONING", "RUNNING", "STOPPING", "STARTING"]

/-- get_user_active_game_servers (db_cog.py lines 295-309): the user's records
whose status is among the active statuses. -/
def getUserActiveGameServers (db : List GameServerRecord) (userId : String) :
    List GameServerRecord :=
  db.filter (fun s =>
    s.discordUserId == userId && activeStatuses.contains s.status)

/-- The statuses relevant to the auto-shutdown listing (db_cog.py line 316). -/
def autoShutdownStatuses : List String := ["RUNNING", "PROVISIONING", "STARTING"]

/-- get_all_running_servers (db_cog.py lines 311-326): records in a relevant
status whose auto_shutdown_hours is not NULL. -/
def getAllRunningServers (db : List GameServerRecord) : List GameServerRecord :=
  db.filter (fun s =>
    autoShutdownStatuses.contains s.status && s.autoShutdownHours.isSome)

/- ### Per-instance firewall tag (gameserver_cog.py lines 414 and 731) -/

/-- Python str.lower restricted to ASCII: uppercase letters shift by 32, all
other characters are unchanged. -/
def pyLowerAscii (c : Char) : Char :=
  if 65 ≤ c.toNat ∧ c.toNat ≤ 90 then Char.ofNat (c.toNat + 32) else c

/-- The tag computed at creation time (gameserver_cog.py line 414):
the f-string gameserv- followed by instance_name.lower().replace(underscore,
hyphen), the whole truncated to the first 63 characters. -/
def gameServerTagCreate (instanceName : List Char) : List Char :=
  ("gameserv-".toList ++
      (instanceName.map pyLowerAscii).map (fun c => if c = '_' then '-' else c)).take
    63

/-- The tag computed at deletion time (gameserver_cog.py line 731), transcribed
from that line: the same expression as at creation. -/
def gameServerTagDelete (instanceName : List Char) : List Char :=
  ("gameserv-".toList ++
      (instanceName.map pyLowerAscii).map (fun c => if c = '_' then '-' else c)).take
    63

/-- An ASCII uppercase letter test, used to state that tags are lowercase. -/
def isUpperAscii (c : Char) : Bool :=
  decide (65 ≤ c.toNat) && decide (c.toNat ≤ 90)

/- ### Firewall rules (gcp_cog.py) -/

/-- A cloud firewall rule as used by the cleanup path: its name and target
tags. -/
structure FirewallRule where
  name : String
  targetTags : List String
deriving DecidableEq, Repr

/-- _list_firewall_rules_by_target_tag (gcp_cog.py lines 734-751): all project
rules whose non-empty target_tags list contains the tag. -/
def listFirewallRulesByTargetTag (allRules : List FirewallRule) (tag : String) :
    List FirewallRule :=
  allRules.filter (fun r => !r.targetTags.isEmpty && r.targetTags.contains tag)

/-- Which rule deletions succeeded and which raised, as collected by the loop of
_control_game_server (gameserver_cog.py lines 737-748). -/
structure FirewallCleanupReport where
  attempted : List String
  deleted : List String
  failed : List String
deriving DecidableEq, Repr

/-- The rule deletion loop (gameserver_cog.py lines 739-748): every listed rule
is attempted in order; a deletion that raises is recorded among the failures and
the loop continues with the remaining rules. -/
def cleanupFirewallRules (rules : List FirewallRule)
    (deleteFails : String → Bool) : FirewallCleanupReport :=
  match rules with
  | [] => ⟨[], [], []⟩
  | r :: rest =>
    let tailReport := cleanupFirewallRules rest deleteFails
    if deleteFails r.name then
      ⟨r.name :: tailReport.attempted, tailReport.deleted,
        r.name :: tailReport.failed⟩
    else
      ⟨r.name :: tailReport.attempted, r.name :: tailReport.deleted,
        tailReport.failed⟩

/- ### Operation polling (gcp_cog.py wait_for_operation, lines 171-197) -/

/-- What one poll of the zonal operation reports: still running, done without
error, or done with the provider's list of (code, message) errors. -/
inductive OpPoll
  | pending
  | doneOk
  | doneErr (errs : List (Nat × String))
deriving DecidableEq, Repr

/-- The ways wait_for_operation can finish: returning None when the operations
client was never initialized, returning the completed operation, raising the
aggregated provider error, raising TimeoutError, or propagating an API error
raised by a poll. The hung alternative stands for exhausting the modelling fuel
and is proved unreachable. -/
inductive WaitOutcome
  | clientMissing
  | completed
  | operationFailed (errs : List (Nat × String))
  | timedOut
  | apiError (e : String)
  | hung
deriving DecidableEq, Repr

/-- The fixed poll interval of wait_for_operation (gcp_cog.py line 194). -/
def pollIntervalSeconds : Nat := 5

/-- The default timeout_seconds parameter of wait_for_operation (line 171). -/
def defaultWaitTimeoutSeconds : Nat := 300

/-- The polling loop of wait_for_operation (gcp_cog.py lines 178-197). The poll
argument gives the outcome of the k-th operations_client.get call; after k
sleeps the elapsed time is pollIntervalSeconds * k. The loop first inspects the
operation status, then checks the elapsed time against the bound, then sleeps;
an exception raised at any point propagates immediately (lines 195-197). Fuel
makes the recursion structural. -/
def waitLoopGo (poll : Nat → Except String OpPoll) (timeoutSeconds : Nat) :
    Nat → Nat → WaitOutcome
  | 0, _ => WaitOutcome.hung
  | fuel + 1, k =>
    match poll k with
    | Except.error e => WaitOutcome.apiError e
    | Except.ok (OpPoll.doneErr errs) => WaitOutcome.operationFailed errs
    | Except.ok OpPoll.doneOk => WaitOutcome.completed
    | Except.ok OpPoll.pending =>
      if timeoutSeconds ≤ pollIntervalSeconds * k then WaitOutcome.timedOut
      else waitLoopGo poll timeoutSeconds fuel (k + 1)

/-- Enough fuel for the loop to run until its timeout check fires. -/
def waitFuel (timeoutSeconds : Nat) : Nat :=
  timeoutSeconds / pollIntervalSeconds + 2

/-- wait_for_operation (gcp_cog.py lines 171-197): returns None (clientMissing)
when the operations client is not initialized (lines 173-175), otherwise runs
the polling loop from elapsed time zero. -/
def waitForOperation (clientInitialized : Bool)
    (poll : Nat → Except String OpPoll) (timeoutSeconds : Nat) : WaitOutcome :=
  if clientInitialized then
    waitLoopGo poll timeoutSeconds (waitFuel timeoutSeconds) 0
  else WaitOutcome.clientMissing

/- ### Creation pipeline guards (gameserver_cog.py create_game_server,
lines 271-326) -/

/-- The abuse-prevention settings read in create_game_server from
settings.get_max_active_vms_per_user and
settings.get_vm_creation_cooldown_seconds. -/
structure CreateSettings where
  maxActiveVmsPerUser : Nat
  vmCreationCooldownSeconds : Int
deriving Repr

/-- How create_game_server leaves its guard sequence: each early return before
the deferred provisioning phase, an uncaught AttributeError aborting the
command (handled only by the cog's generic error handler), or reaching the
cloud create call (_create_vm_logic). -/
inductive CreateOutcome
  | invalidName
  | gcpUnavailable
  | unknownTemplate
  | dbUnavailable
  | attributeErrorAbort
  | quotaExceeded (maxActive : Nat)
  | cooldownActive (remainingSeconds : Int)
  | proceedToCloud
deriving DecidableEq, Repr

/-- The creation-cooldown guard of create_game_server (gameserver_cog.py lines
311-326): when the configured cooldown is positive, the requester's last
gameserv_create usage event is fetched through get_last_command_timestamp — a
genuine bound method of DBCog (db_cog.py lines 123-137) — and a last event more
recent than the cooldown returns with the remaining wait; otherwise the command
goes on to the cloud create. -/
def createCooldownCheck (st : CreateSettings)
    (lastCreateTimestamp : Option Int) (now : Int) : CreateOutcome :=
  if 0 < st.vmCreationCooldownSeconds then
    match lastCreateTimestamp with
    | some t =>
      if now - t < st.vmCreationCooldownSeconds then
        CreateOutcome.cooldownActive (st.vmCreationCooldownSeconds - (now - t))
      else CreateOutcome.proceedToCloud
    | none => CreateOutcome.proceedToCloud
  else CreateOutcome.proceedToCloud

/-- The guard sequence of create_game_server (gameserver_cog.py lines 271-326)
in source order: name validation (line 273), gcp cog presence (line 281),
template lookup (line 285), db cog presence (line 293), then the active-VM
quota block (lines 300-305): when the configured maximum is positive, line 302
evaluates db_cog.get_user_active_game_servers — an attribute lookup that raises
AttributeError, since that operation is a local of setup never bound to DBCog —
and the exception propagates (the surrounding try only starts at line 334), so
the command aborts before the quota comparison, the cooldown guard and the
cloud create. The found branch transcribes the comparison the source would
perform if the lookup resolved. When the maximum is zero the quota block is
skipped and the cooldown guard runs. -/
def createGameServerDecision (instanceName : List Char) (gcpCogAvailable : Bool)
    (templateKnown : Bool) (dbCogAvailable : Bool) (st : CreateSettings)
    (db : List GameServerRecord) (userId : String)
    (lastCreateTimestamp : Option Int) (now : Int) : CreateOutcome :=
  if !validateInstanceName instanceName then CreateOutcome.invalidName
  else if !gcpCogAvailable then CreateOutcome.gcpUnavailable
  else if !templateKnown then CreateOutcome.unknownTemplate
  else if !dbCogAvailable then CreateOutcome.dbUnavailable
  else if 0 < st.maxActiveVmsPerUser then
    match dbCogGetattr "get_user_active_game_servers" with
    | PyAttr.attributeError => CreateOutcome.attributeErrorAbort
    | PyAttr.found =>
      if st.maxActiveVmsPerUser ≤
          (getUserActiveGameServers db userId).length then
        CreateOutcome.quotaExceeded st.maxActiveVmsPerUser
      else createCooldownCheck st lastCreateTimestamp now
  else createCooldownCheck st lastCreateTimestamp now

/- ### The confirmed-delete control flow (gameserver_cog.py
_control_game_server, lines 650-778, action delete) -/

/-- The observable state after the delete branch of _control_game_server: the
inventory after the action, the firewall cleanup report (absent when the
cleanup is never reached), whether the cloud VM delete was submitted, whether
the inventory record was hard-removed, and whether the command aborted with an
uncaught AttributeError. -/
structure DeleteOutcome where
  dbAfter : List GameServerRecord
  firewallReport : Option FirewallCleanupReport
  vmDeleteSubmitted : Bool
  recordRemoved : Bool
  abortedWithAttributeError : Bool
deriving DecidableEq, Repr

/-- The delete action of _control_game_server (gameserver_cog.py lines
650-778). Its first statement inside the try (line 660) evaluates
db_cog.get_game_server_by_name — an attribute lookup that raises
AttributeError, the operation being a local of setup never bound to DBCog.
The except handler (lines 775-778) catches it and itself evaluates
db_cog.update_game_server_status (line 777), whose lookup raises AttributeError
again and propagates: the command aborts with the store untouched, no cloud
delete submitted, no firewall rule listed or deleted and no record removed.
The found branch transcribes the flow the source text would perform if the
lookups resolved: pending DELETING (line 697), cloud delete and
wait_for_operation (vmDeleteOk telling whether it returned or raised,
lines 705-715), on success DELETED with cleared IP (lines 724-727), listing of
the rules carrying the instance tag (listFails standing for a raised listing
error, lines 757-759), each listed rule's deletion attempted with failures
collected (lines 739-753), hard removal (line 762); on failure status ERROR
with the record retained. -/
def controlGameServerDelete (db : List GameServerRecord) (name : String)
    (vmDeleteOk : Bool) (allRules : List FirewallRule)
    (ruleDeleteFails : String → Bool) (listFails : Bool) (now : Int) :
    DeleteOutcome :=
  match dbCogGetattr "get_game_server_by_name" with
  | PyAttr.attributeError =>
    match dbCogGetattr "update_game_server_status" with
    | PyAttr.attributeError => ⟨db, none, false, false, true⟩
    | PyAttr.found =>
      ⟨(updateGameServerStatus db name "ERROR" none none none now false).2,
        none, false, false, true⟩
  | PyAttr.found =>
    let dbPending :=
      (updateGameServerStatus db name "DELETING" none none none now false).2
    if vmDeleteOk then
      let dbFinal :=
        (updateGameServerStatus dbPending name "DELETED" (some "") none none
            now false).2
      let rules :=
        if listFails then []
        else
          listFirewallRulesByTargetTag allRules
            (String.mk (gameServerTagDelete name.toList))
      let report := cleanupFirewallRules rules ruleDeleteFails
      let removal := removeGameServer dbFinal name
      ⟨removal.2, some report, true, removal.1, false⟩
    else
      ⟨(updateGameServerStatus dbPending name "ERROR" none none none now
            false).2,
        none, true, false, false⟩

/- ### Auto-shutdown sweep (gameserver_cog.py auto_shutdown_task,
lines 923-1002) -/

/-- The period of the auto-shutdown loop decorator (line 923). -/
def autoShutdownPeriodMinutes : Nat := 10

/-- The bound passed to wait_for_operation for the auto stop (line 976). -/
def autoStopWaitTimeoutSeconds : Nat := 180

/-- What the sweep does with one listed server: skipped because its status is
not exactly RUNNING or its hours are unset (line 938), skipped for a missing
last_status_update (line 954), not yet past its threshold (line 958), stopped
successfully (status TERMINATED with cleared IP, owner notified best-effort,
lines 978-987), or marked ERROR_AUTO_STOP after a stop failure (lines
988-996). -/
inductive SweepResult
  | notConsidered
  | noTimestamp
  | notDue
  | autoStopped
  | autoStopError
deriving DecidableEq, Repr

/-- The per-server decision of the sweep body (gameserver_cog.py lines
937-1000): only servers whose status equals RUNNING and whose
auto_shutdown_hours is set are examined; the elapsed time since
last_status_update must strictly exceed auto_shutdown_hours (as a timedelta of
3600 seconds per hour); stopSucceeds tells whether the stop operation completed
(wait_for_operation returned the operation) or failed. -/
def sweepServerDecision (s : GameServerRecord) (now : Int)
    (stopSucceeds : Bool) : SweepResult :=
  match s.autoShutdownHours with
  | none => SweepResult.notConsidered
  | some hours =>
    if s.status == "RUNNING" then
      match s.lastStatusUpdate with
      | none => SweepResult.noTimestamp
      | some ts =>
        if (hours : Int) * 3600 < now - ts then
          if stopSucceeds then SweepResult.autoStopped
          else SweepResult.autoStopError
        else SweepResult.notDue
    else SweepResult.notConsidered

/-- The inventory mutations of the sweep for one server: STOPPING_AUTO when a
stop is initiated (line 972), then TERMINATED with cleared IP on success (line
979) or ERROR_AUTO_STOP on failure (lines 991 and 996); otherwise untouched. -/
def sweepServerDbUpdate (db : List GameServerRecord) (s : GameServerRecord)
    (now : Int) (stopSucceeds : Bool) : List GameServerRecord :=
  match sweepServerDecision s now stopSucceeds with
  | SweepResult.autoStopped =>
    let dbStopping :=
      (updateGameServerStatus db s.gcpInstanceName "STOPPING_AUTO" none none
          none now false).2
    (updateGameServerStatus dbStopping s.gcpInstanceName "TERMINATED" (some "")
        none none now false).2
  | SweepResult.autoStopError =>
    let dbStopping :=
      (updateGameServerStatus db s.gcpInstanceName "STOPPING_AUTO" none none
          none now false).2
    (updateGameServerStatus dbStopping s.gcpInstanceName "ERROR_AUTO_STOP" none
        none none now false).2
  | _ => db

/-- Whether the sweep attempts an owner notification for the given per-server
result: only after a successful auto stop (lines 982-987), and the DM failure
is swallowed (best effort). -/
def ownerNotifyAttempted : SweepResult → Bool
  | SweepResult.autoStopped => true
  | _ => false

/-- How one cycle of the auto-shutdown task ends: aborted because its first
step raised (swallowed by the except at gameserver_cog.py line 1001), or a list
of per-server results. -/
inductive SweepCycleResult
  | abortedAttributeError
  | processed (results : List (String × SweepResult))
deriving DecidableEq, Repr

/-- One cycle of auto_shutdown_task (gameserver_cog.py lines 923-1002). Its
first statement inside the try (line 932) evaluates
db_cog.get_all_running_servers — an attribute lookup that raises
AttributeError, the operation being a local of setup never bound to DBCog —
and the exception is caught and only logged by the except at line 1001: the
cycle ends with no server examined, no stop invoked and the store untouched.
The found branch transcribes the per-server loop the source text would perform
if the lookup resolved. -/
def autoShutdownSweepCycle (db : List GameServerRecord) (now : Int)
    (stopSucceeds : String → Bool) : SweepCycleResult × List GameServerRecord :=
  match dbCogGetattr "get_all_running_servers" with
  | PyAttr.attributeError => (SweepCycleResult.abortedAttributeError, db)
  | PyAttr.found =>
    (SweepCycleResult.processed
      ((getAllRunningServers db).map (fun s =>
        (s.gcpInstanceName,
          sweepServerDecision s now (stopSucceeds s.gcpInstanceName)))),
      (getAllRunningServers db).foldl
        (fun acc s => sweepServerDbUpdate acc s now
          (stopSucceeds s.gcpInstanceName))
        db)

/- ### Auxiliary definitions used by the statements -/

/-- Whether looking the name up on a DBCog instance raises AttributeError. -/
def raisesAttributeError (op : String) : Bool :=
  match dbCogGetattr op with
  | PyAttr.attributeError => true
  | PyAttr.found => false

/-- The polling loop reaches its k-th iteration exactly when every earlier poll
reported a pending operation before the timeout bound. -/
def reachesPoll (poll : Nat → Except String OpPoll) (timeoutSeconds k : Nat) :
    Prop :=
  ∀ j, j < k →
    poll j = Except.ok OpPoll.pending ∧ pollIntervalSeconds * j < timeoutSeconds

/-- A concrete inventory row used to evaluate the embedded operations. -/
def sampleRecord : GameServerRecord :=
  { discordUserId := "42"
    gcpInstanceName := "srv-a"
    gcpInstanceId := some "1234567890"
    gcpZone := "europe-west1-b"
    gameTemplateName := "minecraft_vanilla"
    status := "RUNNING"
    ipAddress := some "10.0.0.1"
    portsInfo := some [⟨25565, "TCP"⟩]
    createdAt := 0
    lastStatusUpdate := some 0
    autoShutdownHours := some 2
    additionalConfig := none }

/-- A listed PROVISIONING row: it satisfies the auto-shutdown listing filter but
not the sweep's RUNNING-only guard. -/
def provisioningRecord : GameServerRecord :=
  { sampleRecord with
    gcpInstanceName := "srv-p"
    status := "PROVISIONING"
    autoShutdownHours := some 1 }

/-- First concrete active instance of user 77. -/
def userServer1 : GameServerRecord :=
  { sampleRecord with
    discordUserId := "77"
    gcpInstanceName := "srv-1"
    status := "RUNNING" }

/-- Second concrete active instance of user 77. -/
def userServer2 : GameServerRecord :=
  { sampleRecord with
    discordUserId := "77"
    gcpInstanceName := "srv-2"
    status := "PROVISIONING" }

/-! ## Theorems -/

/-- C1: every inventory operation (register_game_server,
update_game_server_status, get_game_server_by_name,
get_user_active_game_servers, get_all_running_servers, remove_game_server) is a
local function of the module-level setup of db_cog.py, and none of them
resolves as an attribute of a DBCog instance; hence each db_cog.<operation>
call made by the provisioning workflow, the control actions and the
auto-shutdown sweep in gameserver_cog.py, and the one made by the ownership
check in utils/permissions.py, raises AttributeError. -/
theorem C1_inventory_ops_unreachable :
    setupLocalFunctions.all raisesAttributeError = true ∧
    inventoryOpsCalledByGameServerCog.all raisesAttributeError = true ∧
    inventoryOpsCalledByGameServerCog.all
        (fun op => setupLocalFunctions.contains op) = true ∧
    raisesAttributeError inventoryOpCalledByPermissions = true ∧
    setupLocalFunctions.contains inventoryOpCalledByPermissions = true := by
  decide

/-- C2: the rate-limit admission check admits owners unconditionally, then
admits excluded commands, and otherwise admits exactly when the caller's usage
count over the preceding 60 seconds is strictly below the configured maximum
(so a count that has reached the maximum is denied); a storage error during the
count lookup admits (fails open). -/
theorem C2_rate_limit_policy (cfg : RateLimitConfig) (isOwner : Bool)
    (commandName : String) (events : List UsageEvent) (userId : String)
    (now : Int) (storeFails : Bool) :
    rateLimitAdmit cfg isOwner commandName events userId now storeFails = true ↔
      (isOwner = true ∨ commandName ∈ cfg.excludedCommands ∨ storeFails = true ∨
        countSince events userId (now - 60) < cfg.maxCommandsPerMinute) := by
  unfold rateLimitAdmit checkAppCommandRateLimit
  cases isOwner
  · by_cases hex : commandName ∈ cfg.excludedCommands
    · have hc : cfg.excludedCommands.contains commandName = true :=
        List.elem_iff.mpr hex
      simp [hc, hex]
    · have hc : cfg.excludedCommands.contains commandName = false :=
        Bool.eq_false_iff.mpr (fun hcon => hex (List.elem_iff.mp hcon))
      cases storeFails
      · by_cases hcount :
            cfg.maxCommandsPerMinute ≤ countSince events userId (now - 60)
        · simp [hc, hex, hcount, Nat.not_lt.mpr hcount]
        · simp [hc, hex, hcount, Nat.lt_of_not_le hcount]
      · simp [hc, hex]
  · simp

/-- C3: the instance-name validation run before any cloud call accepts a name
exactly when it is in the language of the pattern
lowercase-letter followed by an optional run of hyphens, lowercase letters and
digits ending in a letter or digit, with length between 1 and 63; the examples
MyServer, 1server and server- are rejected, a and my-server1 accepted, and a
create request with an invalid name returns at the name check, before the
cloud create call. -/
theorem C3_name_validation :
    (∀ n : List Char,
        validateInstanceName n = true ↔
          (n ∈ instanceNameRegex.matches' ∧ 1 ≤ n.length ∧ n.length ≤ 63)) ∧
    validateInstanceName "MyServer".toList = false ∧
    validateInstanceName "1server".toList = false ∧
    validateInstanceName "server-".toList = false ∧
    validateInstanceName "a".toList = true ∧
    validateInstanceName "my-server1".toList = true ∧
    (∀ (n : List Char) (g t d : Bool) (st : CreateSettings)
        (db : List GameServerRecord) (userId : String) (lastTs : Option Int)
        (now : Int),
        validateInstanceName n = false →
          createGameServerDecision n g t d st db userId lastTs now =
            CreateOutcome.invalidName) := by
  refine ⟨?_, by decide, by decide, by decide, by decide, by decide, ?_⟩
  · intro n
    unfold validateInstanceName
    rw [Bool.and_eq_true, Bool.and_eq_true]
    rw [RegularExpression.rmatch_iff_matches']
    simp
  · intro n g t d st db userId lastTs now h
    unfold createGameServerDecision
    simp [h]

/-- Witness for C3 at the concrete rejected name MyServer. -/
theorem C3_name_validation_witness :
    validateInstanceName "MyServer".toList = false ∧
    createGameServerDecision "MyServer".toList true true true ⟨2, 300⟩ [] "77"
        none 0 =
      CreateOutcome.invalidName := by
  refine ⟨by decide, ?_⟩
  exact C3_name_validation.2.2.2.2.2.2 "MyServer".toList true true true
    ⟨2, 300⟩ [] "77" none 0 (by decide)

/-- C4 counterexample: with the shipped default maximum of 2 active VMs, a
requester who already owns 2 active instances is not rejected with the quota
message — the guard aborts with an uncaught AttributeError at the inventory
lookup of line 302 — and a last create event 10 seconds old under a 300-second
cooldown is likewise not answered with the remaining wait, because the quota
block aborts before the cooldown guard is reached. -/
theorem C4_counterexample :
    createGameServerDecision "a".toList true true true ⟨2, 300⟩
        [userServer1, userServer2] "77" none 0 =
      CreateOutcome.attributeErrorAbort ∧
    createGameServerDecision "a".toList true true true ⟨2, 300⟩
        [userServer1, userServer2] "77" none 0 ≠
      CreateOutcome.quotaExceeded 2 ∧
    createGameServerDecision "a".toList true true true ⟨2, 300⟩ [] "77"
        (some 90) 100 =
      CreateOutcome.attributeErrorAbort ∧
    createGameServerDecision "a".toList true true true ⟨2, 300⟩ [] "77"
        (some 90) 100 ≠
      CreateOutcome.cooldownActive 290 := by
  decide

/-- C4 amended: whenever max_active_vms_per_user is positive, the create
request aborts at the quota guard with an uncaught AttributeError raised by the
db_cog.get_user_active_game_servers lookup — no quota message is sent and the
cloud create is never reached; the cooldown guard is reachable only with the
maximum configured to zero, and then a last create event t seconds before now,
within the positive cooldown C, is rejected with exactly C minus the elapsed
seconds remaining, again without a cloud call. -/
theorem C4_quota_and_cooldown_amended (n : List Char) (st : CreateSettings)
    (db : List GameServerRecord) (userId : String) (lastTs : Option Int)
    (now : Int) (hname : validateInstanceName n = true) :
    (0 < st.maxActiveVmsPerUser →
      createGameServerDecision n true true true st db userId lastTs now =
          CreateOutcome.attributeErrorAbort ∧
        createGameServerDecision n true true true st db userId lastTs now ≠
          CreateOutcome.proceedToCloud ∧
        createGameServerDecision n true true true st db userId lastTs now ≠
          CreateOutcome.quotaExceeded st.maxActiveVmsPerUser) ∧
    (∀ t : Int, st.maxActiveVmsPerUser = 0 →
      0 < st.vmCreationCooldownSeconds → lastTs = some t →
      now - t < st.vmCreationCooldownSeconds →
      createGameServerDecision n true true true st db userId lastTs now =
          CreateOutcome.cooldownActive
            (st.vmCreationCooldownSeconds - (now - t)) ∧
        createGameServerDecision n true true true st db userId lastTs now ≠
          CreateOutcome.proceedToCloud) := by
  have hattr : dbCogGetattr "get_user_active_game_servers" =
      PyAttr.attributeError := by decide
  constructor
  · intro hmax
    unfold createGameServerDecision
    rw [hname]
    simp [hmax, hattr]
  · intro t hmax hcd hlast hlt
    unfold createGameServerDecision createCooldownCheck
    rw [hname, hlast]
    simp [hmax, hcd, hlt]

/-- Witness for C4's amended statement: user 77 with two active instances under
the default maximum of 2 aborts with AttributeError; with the maximum set to
zero, an empty inventory and a last create event 10 seconds old under a
300-second cooldown, the request is rejected with 290 seconds remaining. -/
theorem C4_quota_and_cooldown_amended_witness :
    createGameServerDecision "a".toList true true true ⟨2, 300⟩
        [userServer1, userServer2] "77" none 0 =
      CreateOutcome.attributeErrorAbort ∧
    createGameServerDecision "a".toList true true true ⟨0, 300⟩ [] "77"
        (some 90) 100 =
      CreateOutcome.cooldownActive 290 := by
  constructor
  · exact ((C4_quota_and_cooldown_amended "a".toList ⟨2, 300⟩
      [userServer1, userServer2] "77" none 0 (by decide)).1 (by decide)).1
  · have h := ((C4_quota_and_cooldown_amended "a".toList ⟨0, 300⟩ [] "77"
      (some 90) 100 (by decide)).2 90 rfl (by decide) rfl (by decide)).1
    simpa using h

/-- The mutations of applyGameServerUpdate never touch the record's name. -/
theorem applyGameServerUpdate_name (r : GameServerRecord) (status : String)
    (ip gcpId : Option String) (ports : Option (List PortSpec)) (now : Int) :
    (applyGameServerUpdate r status ip gcpId ports now).gcpInstanceName =
      r.gcpInstanceName := rfl

/-- Looking up the updated store finds the updated image of the record the
original lookup found. -/
theorem findServer_map_update (db : List GameServerRecord)
    (name status : String) (ip gcpId : Option String)
    (ports : Option (List PortSpec)) (now : Int) (r : GameServerRecord)
    (hfound : findServer db name = some r) :
    findServer
        (db.map (fun s =>
          if s.gcpInstanceName == name then
            applyGameServerUpdate s status ip gcpId ports now
          else s)) name =
      some (applyGameServerUpdate r status ip gcpId ports now) := by
  induction db with
  | nil => simp [findServer] at hfound
  | cons s rest ih =>
    unfold findServer at hfound ih ⊢
    by_cases h : (s.gcpInstanceName == name) = true
    · rw [List.find?_cons_of_pos (p := fun c : GameServerRecord => c.gcpInstanceName == name) rest
        h] at hfound
      obtain rfl : s = r := by injection hfound
      simp only [List.map_cons, if_pos h]
      refine List.find?_cons_of_pos
        (p := fun c : GameServerRecord => c.gcpInstanceName == name) _ ?_
      show ((applyGameServerUpdate s status ip gcpId ports
          now).gcpInstanceName == name) = true
      rw [applyGameServerUpdate_name]
      exact h
    · rw [List.find?_cons_of_neg (p := fun c : GameServerRecord => c.gcpInstanceName == name) rest
        h] at hfound
      simp only [List.map_cons, if_neg h]
      rw [List.find?_cons_of_neg (p := fun c : GameServerRecord => c.gcpInstanceName == name) _ h]
      exact ih hfound

/-- On a found name, update_game_server_status without a storage failure
returns True and maps the matching record through the field mutations. -/
theorem updateGameServerStatus_found (db : List GameServerRecord)
    (name status : String) (ip gcpId : Option String)
    (ports : Option (List PortSpec)) (now : Int) (r : GameServerRecord)
    (hfound : findServer db name = some r) :
    updateGameServerStatus db name status ip gcpId ports now false =
      (true,
        db.map (fun s =>
          if s.gcpInstanceName == name then
            applyGameServerUpdate s status ip gcpId ports now
          else s)) := by
  unfold updateGameServerStatus
  rw [hfound]
  simp

/-- C5: a successful update on an existing record returns True and the stored
record becomes the field-mutated image: status is always overwritten;
ip_address is overwritten exactly when an argument is supplied, so supplying
the empty string stores the empty string and omitting it preserves the old
value; the identity, zone, template, creation time, auto-shutdown and extra
config fields are untouched (as are the optional id and ports fields when
omitted); last_status_update is refreshed to now; and every other record of the
store is kept. -/
theorem C5_update_partial_frame (db : List GameServerRecord)
    (r : GameServerRecord) (name status : String) (ip gcpId : Option String)
    (ports : Option (List PortSpec)) (now : Int)
    (hfound : findServer db name = some r) :
    (updateGameServerStatus db name status ip gcpId ports now false).1 =
      true ∧
    findServer
        (updateGameServerStatus db name status ip gcpId ports now false).2
        name =
      some (applyGameServerUpdate r status ip gcpId ports now) ∧
    (applyGameServerUpdate r status ip gcpId ports now).status = status ∧
    (applyGameServerUpdate r status ip gcpId ports now).ipAddress =
      (match ip with
        | some s => some s
        | none => r.ipAddress) ∧
    (applyGameServerUpdate r status (some "") gcpId ports now).ipAddress =
      some "" ∧
    (applyGameServerUpdate r status none gcpId ports now).ipAddress =
      r.ipAddress ∧
    (applyGameServerUpdate r status ip gcpId ports now).lastStatusUpdate =
      some now ∧
    (applyGameServerUpdate r status ip gcpId ports now).discordUserId =
      r.discordUserId ∧
    (applyGameServerUpdate r status ip gcpId ports now).gcpInstanceName =
      r.gcpInstanceName ∧
    (applyGameServerUpdate r status ip gcpId ports now).gcpZone = r.gcpZone ∧
    (applyGameServerUpdate r status ip gcpId ports now).gameTemplateName =
      r.gameTemplateName ∧
    (applyGameServerUpdate r status ip gcpId ports now).createdAt =
      r.createdAt ∧
    (applyGameServerUpdate r status ip gcpId ports now).autoShutdownHours =
      r.autoShutdownHours ∧
    (applyGameServerUpdate r status ip gcpId ports now).additionalConfig =
      r.additionalConfig ∧
    (applyGameServerUpdate r status ip none ports now).gcpInstanceId =
      r.gcpInstanceId ∧
    (applyGameServerUpdate r status ip gcpId none now).portsInfo =
      r.portsInfo ∧
    (∀ s ∈ db, s.gcpInstanceName ≠ name →
      s ∈ (updateGameServerStatus db name status ip gcpId ports now false).2) := by
  rw [updateGameServerStatus_found db name status ip gcpId ports now r hfound]
  refine ⟨rfl, findServer_map_update db name status ip gcpId ports now r hfound,
    rfl, rfl, rfl, rfl, rfl, rfl, rfl, rfl, rfl, rfl, rfl, rfl, rfl, rfl, ?_⟩
  intro s hs hneq
  refine List.mem_map.mpr ⟨s, hs, ?_⟩
  rw [if_neg (by simpa using hneq)]

/-- Witness for C5 at the concrete sample record: the TERMINATED update with an
empty-string IP clears the stored IP, and a RUNNING update without an IP
argument keeps it. -/
theorem C5_update_partial_frame_witness :
    (updateGameServerStatus [sampleRecord] "srv-a" "TERMINATED" (some "") none
        none 5 false).1 = true ∧
    (applyGameServerUpdate sampleRecord "TERMINATED" (some "") none none
        5).ipAddress = some "" ∧
    (applyGameServerUpdate sampleRecord "RUNNING" none none none
        5).ipAddress = sampleRecord.ipAddress := by
  have h := C5_update_partial_frame [sampleRecord] sampleRecord "srv-a"
    "TERMINATED" (some "") none none 5 (by decide)
  have h2 := C5_update_partial_frame [sampleRecord] sampleRecord "srv-a"
    "RUNNING" none none none 5 (by decide)
  exact ⟨h.1, h.2.2.2.2.1, h2.2.2.2.2.2.1⟩

/-- C6 counterexample: update_game_server_status returns the same False for a
storage failure on an existing record (rolled back, store unchanged) as for a
missing record, so the False result does not characterise "not found" and a
write failure is not signalled distinguishably. -/
theorem C6_counterexample :
    (updateGameServerStatus [sampleRecord] "srv-a" "RUNNING" none none none 5
        true).1 = false ∧
    (updateGameServerStatus [sampleRecord] "srv-a" "RUNNING" none none none 5
        true).2 = [sampleRecord] ∧
    findServer [sampleRecord] "srv-a" = some sampleRecord ∧
    (updateGameServerStatus [sampleRecord] "missing" "RUNNING" none none none 5
        false).1 = false := by
  decide

/-- C6 amended: update_game_server_status returns False exactly when the named
instance does not exist or the write fails (the two cases are not
distinguishable by the result), and in either False case no record is
mutated. -/
theorem C6_update_false_characterisation (db : List GameServerRecord)
    (name status : String) (ip gcpId : Option String)
    (ports : Option (List PortSpec)) (now : Int) (commitFails : Bool) :
    ((updateGameServerStatus db name status ip gcpId ports now commitFails).1 =
        false ↔
      (findServer db name = none ∨ commitFails = true)) ∧
    ((updateGameServerStatus db name status ip gcpId ports now commitFails).1 =
        false →
      (updateGameServerStatus db name status ip gcpId ports now
          commitFails).2 = db) := by
  unfold updateGameServerStatus
  cases hf : findServer db name
  · simp
  · cases commitFails
    · simp
    · simp

/-- Witness for C6's amended statement at a missing name. -/
theorem C6_update_false_characterisation_witness :
    ((updateGameServerStatus [sampleRecord] "missing" "RUNNING" none none none
          5 false).1 = false ↔
      (findServer [sampleRecord] "missing" = none ∨ false = true)) ∧
    (updateGameServerStatus [sampleRecord] "missing" "RUNNING" none none none 5
        false).2 = [sampleRecord] := by
  refine ⟨(C6_update_false_characterisation [sampleRecord] "missing" "RUNNING"
    none none none 5 false).1, ?_⟩
  exact (C6_update_false_characterisation [sampleRecord] "missing" "RUNNING"
    none none none 5 false).2 (by decide)

/-- C7 counterexample: a confirmed delete of an existing record with two
firewall rules carrying the instance tag attempts no rule deletion, never
submits the VM delete and removes no record — the flow aborts at the inventory
lookup with AttributeError — contradicting the claimed cleanup behaviour. -/
theorem C7_counterexample :
    (controlGameServerDelete [sampleRecord] "srv-a" true
          [⟨"rule-x", ["gameserv-srv-a"]⟩, ⟨"rule-y", ["gameserv-srv-a"]⟩]
          (fun rn => rn == "rule-x") false 9).firewallReport = none ∧
    (controlGameServerDelete [sampleRecord] "srv-a" true
          [⟨"rule-x", ["gameserv-srv-a"]⟩, ⟨"rule-y", ["gameserv-srv-a"]⟩]
          (fun rn => rn == "rule-x") false 9).vmDeleteSubmitted = false ∧
    (controlGameServerDelete [sampleRecord] "srv-a" true
          [⟨"rule-x", ["gameserv-srv-a"]⟩, ⟨"rule-y", ["gameserv-srv-a"]⟩]
          (fun rn => rn == "rule-x") false 9).recordRemoved = false ∧
    findServer
        (controlGameServerDelete [sampleRecord] "srv-a" true
            [⟨"rule-x", ["gameserv-srv-a"]⟩, ⟨"rule-y", ["gameserv-srv-a"]⟩]
            (fun rn => rn == "rule-x") false 9).dbAfter "srv-a" =
      some sampleRecord := by
  decide

/-- C7 amended: every confirmed delete aborts with an uncaught AttributeError —
the inventory lookup db_cog.get_game_server_by_name raises, and the except
handler's own db_cog.update_game_server_status lookup raises again — so the VM
delete is never submitted, no firewall rule is listed or deleted, no report is
produced, and the inventory is left untouched with no record removed. -/
theorem C7_delete_cleanup_amended (db : List GameServerRecord) (name : String)
    (vmDeleteOk : Bool) (allRules : List FirewallRule)
    (ruleDeleteFails : String → Bool) (listFails : Bool) (now : Int) :
    raisesAttributeError "get_game_server_by_name" = true ∧
    raisesAttributeError "update_game_server_status" = true ∧
    controlGameServerDelete db name vmDeleteOk allRules ruleDeleteFails
        listFails now =
      ⟨db, none, false, false, true⟩ := by
  exact ⟨by decide, by decide, rfl⟩

/-- One unfolding of the polling loop when the poll reports pending. -/
theorem waitLoopGo_succ_pending (poll : Nat → Except String OpPoll)
    (timeoutSeconds fuel k : Nat) (hp : poll k = Except.ok OpPoll.pending) :
    waitLoopGo poll timeoutSeconds (fuel + 1) k =
      if timeoutSeconds ≤ pollIntervalSeconds * k then WaitOutcome.timedOut
      else waitLoopGo poll timeoutSeconds fuel (k + 1) := by
  conv_lhs => rw [waitLoopGo]
  rw [hp]

/-- One unfolding of the polling loop when the operation is DONE without
error. -/
theorem waitLoopGo_succ_doneOk (poll : Nat → Except String OpPoll)
    (timeoutSeconds fuel k : Nat) (hp : poll k = Except.ok OpPoll.doneOk) :
    waitLoopGo poll timeoutSeconds (fuel + 1) k = WaitOutcome.completed := by
  conv_lhs => rw [waitLoopGo]
  rw [hp]

/-- One unfolding of the polling loop when the operation is DONE with
errors. -/
theorem waitLoopGo_succ_doneErr (poll : Nat → Except String OpPoll)
    (timeoutSeconds fuel k : Nat) (errs : List (Nat × String))
    (hp : poll k = Except.ok (OpPoll.doneErr errs)) :
    waitLoopGo poll timeoutSeconds (fuel + 1) k =
      WaitOutcome.operationFailed errs := by
  conv_lhs => rw [waitLoopGo]
  rw [hp]

/-- One unfolding of the polling loop when the poll itself raises. -/
theorem waitLoopGo_succ_error (poll : Nat → Except String OpPoll)
    (timeoutSeconds fuel k : Nat) (e : String)
    (hp : poll k = Except.error e) :
    waitLoopGo poll timeoutSeconds (fuel + 1) k = WaitOutcome.apiError e := by
  conv_lhs => rw [waitLoopGo]
  rw [hp]

/-- With fuel exceeding the remaining number of polls the bound allows, the
modelling fuel never runs out. -/
theorem waitLoopGo_ne_hung (poll : Nat → Except String OpPoll)
    (timeoutSeconds : Nat) :
    ∀ fuel k : Nat, timeoutSeconds < pollIntervalSeconds * (k + fuel) →
      waitLoopGo poll timeoutSeconds (fuel + 1) k ≠ WaitOutcome.hung := by
  intro fuel
  induction fuel with
  | zero =>
    intro k hk
    unfold waitLoopGo
    cases hp : poll k with
    | error e => simp
    | ok o =>
      cases o with
      | pending =>
        rw [if_pos (by simp only [pollIntervalSeconds] at hk ⊢; omega)]
        simp
      | doneOk => simp
      | doneErr errs => simp
  | succ fuel ih =>
    intro k hk
    show waitLoopGo poll timeoutSeconds (fuel + 1 + 1) k ≠ WaitOutcome.hung
    unfold waitLoopGo
    cases hp : poll k with
    | error e => simp
    | ok o =>
      cases o with
      | pending =>
        by_cases hto : timeoutSeconds ≤ pollIntervalSeconds * k
        · rw [if_pos hto]; simp
        · rw [if_neg hto]
          exact ih (k + 1)
            (by simp only [pollIntervalSeconds] at hk ⊢; omega)
      | doneOk => simp
      | doneErr errs => simp

/-- Pending polls under the bound advance the loop one iteration at a time
without changing its result. -/
theorem waitLoopGo_unroll (poll : Nat → Except String OpPoll)
    (timeoutSeconds : Nat) :
    ∀ m fuel k : Nat,
      (∀ j, j < m →
        poll (k + j) = Except.ok OpPoll.pending ∧
          pollIntervalSeconds * (k + j) < timeoutSeconds) →
      waitLoopGo poll timeoutSeconds (fuel + m) k =
        waitLoopGo poll timeoutSeconds fuel (k + m) := by
  intro m
  induction m with
  | zero => intro fuel k _; rfl
  | succ m ih =>
    intro fuel k h
    have h0 := h 0 (Nat.succ_pos m)
    rw [Nat.add_zero] at h0
    rw [show fuel + (m + 1) = (fuel + m) + 1 from by omega]
    rw [waitLoopGo_succ_pending poll timeoutSeconds (fuel + m) k h0.1]
    rw [if_neg (Nat.not_le.mpr h0.2)]
    rw [show k + (m + 1) = (k + 1) + m from by omega]
    exact ih fuel (k + 1) (fun j hj => by
      have hh := h (j + 1) (by omega)
      rwa [show k + (j + 1) = k + 1 + j from by omega] at hh)

/-- A poll history that stays pending within the bound up to iteration k lets
the whole call be computed from its k-th poll. -/
theorem waitForOperation_reach (poll : Nat → Except String OpPoll)
    (timeoutSeconds k : Nat)
    (hreach : reachesPoll poll timeoutSeconds k) :
    waitForOperation true poll timeoutSeconds =
      waitLoopGo poll timeoutSeconds (waitFuel timeoutSeconds - k) k ∧
    1 ≤ waitFuel timeoutSeconds - k := by
  have hk : k ≤ timeoutSeconds / 5 + 1 := by
    rcases Nat.eq_zero_or_pos k with rfl | hkpos
    · omega
    · have hlast := (hreach (k - 1) (by omega)).2
      simp only [pollIntervalSeconds] at hlast
      omega
  have hfuel : 1 ≤ waitFuel timeoutSeconds - k := by
    simp only [waitFuel, pollIntervalSeconds]
    omega
  refine ⟨?_, hfuel⟩
  have hsplit : waitFuel timeoutSeconds = (waitFuel timeoutSeconds - k) + k := by
    simp only [waitFuel, pollIntervalSeconds]
    omega
  unfold waitForOperation
  rw [if_pos rfl, hsplit,
    waitLoopGo_unroll poll timeoutSeconds k (waitFuel timeoutSeconds - k) 0
      (fun j hj => by simpa using hreach j hj)]
  rw [Nat.zero_add]
  congr 1
  omega

/-- C8: wait_for_operation polls at the fixed 5-second interval with the
default 300-second bound and, whenever its polling loop reaches an iteration,
finishes according to that poll: it returns the completed operation on DONE
without error, raises the aggregated provider errors on DONE with error, raises
the distinct TimeoutError when the operation is still pending at or past the
bound, and propagates an API error raised by the poll immediately; the loop
itself can never run out of steps (it cannot hang). -/
theorem C8_wait_for_operation :
    (∀ (poll : Nat → Except String OpPoll) (timeoutSeconds : Nat),
      waitForOperation true poll timeoutSeconds ≠ WaitOutcome.hung) ∧
    (∀ (poll : Nat → Except String OpPoll) (timeoutSeconds k : Nat),
      reachesPoll poll timeoutSeconds k →
      (poll k = Except.ok OpPoll.doneOk →
        waitForOperation true poll timeoutSeconds = WaitOutcome.completed) ∧
      (∀ errs, poll k = Except.ok (OpPoll.doneErr errs) →
        waitForOperation true poll timeoutSeconds =
          WaitOutcome.operationFailed errs) ∧
      (poll k = Except.ok OpPoll.pending →
        timeoutSeconds ≤ pollIntervalSeconds * k →
        waitForOperation true poll timeoutSeconds = WaitOutcome.timedOut) ∧
      (∀ e, poll k = Except.error e →
        waitForOperation true poll timeoutSeconds = WaitOutcome.apiError e)) ∧
    (∀ errs, WaitOutcome.timedOut ≠ WaitOutcome.operationFailed errs) ∧
    (∀ e errs,
      WaitOutcome.apiError e ≠ WaitOutcome.operationFailed errs ∧
      WaitOutcome.apiError e ≠ WaitOutcome.timedOut) ∧
    pollIntervalSeconds = 5 ∧ defaultWaitTimeoutSeconds = 300 := by
  refine ⟨?_, ?_, by intro errs; simp, by intro e errs; simp [And.intro],
    rfl, rfl⟩
  · intro poll timeoutSeconds
    unfold waitForOperation
    rw [if_pos rfl]
    rw [show waitFuel timeoutSeconds = (timeoutSeconds / 5 + 1) + 1 from by
      simp only [waitFuel, pollIntervalSeconds]]
    exact waitLoopGo_ne_hung poll timeoutSeconds (timeoutSeconds / 5 + 1) 0
      (by simp only [pollIntervalSeconds]; omega)
  · intro poll timeoutSeconds k hreach
    obtain ⟨heq, hfuel⟩ :=
      waitForOperation_reach poll timeoutSeconds k hreach
    obtain ⟨f, hf⟩ : ∃ f, waitFuel timeoutSeconds - k = f + 1 :=
      ⟨waitFuel timeoutSeconds - k - 1, by omega⟩
    rw [hf] at heq
    refine ⟨?_, ?_, ?_, ?_⟩
    · intro hp
      rw [heq, waitLoopGo_succ_doneOk poll timeoutSeconds f k hp]
    · intro errs hp
      rw [heq, waitLoopGo_succ_doneErr poll timeoutSeconds f k errs hp]
    · intro hp hto
      rw [heq, waitLoopGo_succ_pending poll timeoutSeconds f k hp, if_pos hto]
    · intro e hp
      rw [heq, waitLoopGo_succ_error poll timeoutSeconds f k e hp]

/-- Witness for C8: an operation pending at the first poll and DONE at the
second completes, and one that never leaves pending under a 10-second bound
times out. -/
theorem C8_wait_for_operation_witness :
    waitForOperation true
        (fun k => if k = 0 then Except.ok OpPoll.pending
          else Except.ok OpPoll.doneOk) 300 = WaitOutcome.completed ∧
    waitForOperation true (fun _ => Except.ok OpPoll.pending) 10 =
      WaitOutcome.timedOut := by
  constructor
  · exact (C8_wait_for_operation.2.1
      (fun k => if k = 0 then Except.ok OpPoll.pending
        else Except.ok OpPoll.doneOk) 300 1
      (by
        intro j hj
        interval_cases j
        exact ⟨rfl, by decide⟩)).1 rfl
  · exact (C8_wait_for_operation.2.1 (fun _ => Except.ok OpPoll.pending) 10 2
      (by
        intro j hj
        interval_cases j
        · exact ⟨rfl, by decide⟩
        · exact ⟨rfl, by decide⟩)).2.2.1 rfl (by decide)

/-- C9 counterexample: an instance in status RUNNING with auto-shutdown hours
set and far past its threshold — satisfying the auto-shutdown listing filter —
is nevertheless never stopped: the sweep cycle aborts at the listing lookup
with AttributeError and leaves the store untouched (no stop invoked, no
TERMINATED or ERROR_AUTO_STOP written, IP intact). -/
theorem C9_counterexample :
    sampleRecord ∈ getAllRunningServers [sampleRecord] ∧
    sampleRecord.status = "RUNNING" ∧
    sampleRecord.autoShutdownHours = some 2 ∧
    sampleRecord.lastStatusUpdate = some 0 ∧
    ((2 : Int) * 3600 < (100000 : Int) - 0) ∧
    autoShutdownSweepCycle [sampleRecord] 100000 (fun _ => true) =
      (SweepCycleResult.abortedAttributeError, [sampleRecord]) ∧
    findServer
        (autoShutdownSweepCycle [sampleRecord] 100000 (fun _ => true)).2
        "srv-a" =
      some sampleRecord := by
  decide

/-- C9 amended: the auto-shutdown task is scheduled every 10 minutes (and codes
a 180-second wait bound for its stop), but every cycle aborts at its first
step: the listing lookup db_cog.get_all_running_servers raises AttributeError,
which the task body catches and only logs, so no instance is ever examined or
stopped and the inventory is never written by the sweep. -/
theorem C9_auto_shutdown_amended (db : List GameServerRecord) (now : Int)
    (stopSucceeds : String → Bool) :
    autoShutdownPeriodMinutes = 10 ∧
    autoStopWaitTimeoutSeconds = 180 ∧
    raisesAttributeError "get_all_running_servers" = true ∧
    autoShutdownSweepCycle db now stopSucceeds =
      (SweepCycleResult.abortedAttributeError, db) := by
  exact ⟨rfl, rfl, by decide, rfl⟩

/-- Lowering an ASCII character never yields an ASCII uppercase letter. -/
theorem isUpperAscii_pyLowerAscii (c : Char) :
    isUpperAscii (pyLowerAscii c) = false := by
  have hval : ∀ m : Nat, m < 91 → 65 ≤ m →
      isUpperAscii (Char.ofNat (m + 32)) = false := by decide
  unfold pyLowerAscii
  split
  · next h => exact hval c.toNat (by omega) h.1
  · next h =>
    unfold isUpperAscii
    by_cases h1 : 65 ≤ c.toNat
    · have h2 : ¬c.toNat ≤ 90 := fun hle => h ⟨h1, hle⟩
      simp [h2]
    · simp [h1]

/-- C10: the per-instance firewall tag is a pure function of the name — the
prefix gameserv- plus the lowercased, underscore-to-hyphen name, truncated to
63 characters — the expression computed at creation equals the one computed at
deletion for every name, the result is at most 63 characters with no ASCII
uppercase letter, and the My_Server example evaluates as specified. -/
theorem C10_tag_deterministic :
    (∀ n : List Char, gameServerTagCreate n = gameServerTagDelete n) ∧
    (∀ n : List Char, (gameServerTagCreate n).length ≤ 63) ∧
    (∀ n : List Char, ∀ c ∈ gameServerTagCreate n, isUpperAscii c = false) ∧
    gameServerTagCreate "My_Server".toList = "gameserv-my-server".toList := by
  refine ⟨fun n => rfl, ?_, ?_, by decide⟩
  · intro n
    unfold gameServerTagCreate
    rw [List.length_take]
    exact Nat.min_le_left _ _
  · intro n c hc
    unfold gameServerTagCreate at hc
    have hc2 := List.take_subset _ _ hc
    rcases List.mem_append.mp hc2 with h | h
    · have hall : ∀ x ∈ "gameserv-".toList, isUpperAscii x = false := by decide
      exact hall c h
    · obtain ⟨b, hb, rfl⟩ := List.mem_map.mp h
      obtain ⟨a, _, rfl⟩ := List.mem_map.mp hb
      by_cases hund : pyLowerAscii a = '_'
      · rw [if_pos hund]
        decide
      · rw [if_neg hund]
        exact isUpperAscii_pyLowerAscii a

/-- Witness for C10 at the name My_Server and the member character g. -/
theorem C10_tag_deterministic_witness :
    gameServerTagCreate "My_Server".toList =
      gameServerTagDelete "My_Server".toList ∧
    (gameServerTagCreate "My_Server".toList).length ≤ 63 ∧
    isUpperAscii 'g' = false ∧
    'g' ∈ gameServerTagCreate "My_Server".toList := by
  refine ⟨C10_tag_deterministic.1 "My_Server".toList,
    C10_tag_deterministic.2.1 "My_Server".toList, ?_, by decide⟩
  exact C10_tag_deterministic.2.2.1 "My_Server".toList 'g' (by decide)

end GcpBot
